import Mathlib

/-!
Shallow embedding of `src/glc.h` (GLC, an OpenGL common-function library).

The library has three entry points layered over the OpenGL driver:
`glcMakeShaderProgram`, `glcSetUniformx` / `glcSetUniformxv`, and
`glcSetUniformMatx`.  All driver calls and libc calls (fopen, fclose,
calloc, free, glCreateShader, glDeleteShader, …) are modelled as events
recorded in the order the C code issues them; the driver's replies
(whether an fopen succeeds, which handles glCreateShader returns,
compile and link statuses, uniform-location lookups) are supplied by an
environment structure, so a theorem quantifying over the environment
covers every possible driver behaviour.
-/

namespace GLC

/-- OpenGL numeric type tags, values from the GL headers. -/
def GL_FLOAT : Int := 0x1406

def GL_INT : Int := 0x1404

def GL_UNSIGNED_INT : Int := 0x1405

/-- The two shader stages used by `glcMakeShaderProgram`
(`GL_VERTEX_SHADER` / `GL_FRAGMENT_SHADER`). -/
inductive ShaderKind
  | vertex
  | fragment
deriving DecidableEq, Repr

/-- The distinct stderr diagnostics printed by glc.h, one constructor per
`fprintf(stderr, ...)` message in the source. -/
inductive ErrKind
  | fileOpenVertex
  | fileOpenFragment
  | shaderCreateVertex
  | shaderCreateFragment
  | compileVertex
  | compileFragment
  | programCreate
  | link
  | invalidDimension
  | invalidCount
  | unknownUniform
  | allocFail
deriving DecidableEq, Repr

/-- The file-length scan of glc.h lines 72 and 98:
`do { length++; } while(fgetc(file) != EOF);`.
The body increments `length`, then the condition reads one character;
in binary mode `fgetc` returns each of the file's bytes and then `EOF`,
so the loop body runs once per byte plus once for the `EOF` read. -/
def scanLoop : Nat → List UInt8 → Nat
  | len, [] => len + 1
  | len, _ :: rest => scanLoop (len + 1) rest

/-- `length` as computed by the scan starting from `length = 0`. -/
def scanLength (contents : List UInt8) : Nat :=
  scanLoop 0 contents

/-- The source buffer built by glc.h lines 73-75 (and 99-101):
`calloc(length + 1, 1)` zero-fills `length + 1` cells, then
`fread(source, 1, length, file)` copies `min length contents.length`
bytes from the start of the rewound file; the remaining cells keep
calloc's zeros. -/
def readFileBuf (contents : List UInt8) : List UInt8 :=
  let length := scanLength contents
  let copied := min length contents.length
  contents.take copied ++ List.replicate (length + 1 - copied) 0

/-- One libc / OpenGL call issued by `glcMakeShaderProgram`, in program
order. -/
inductive Ev
  | fopen (path : String) (ok : Bool)
  | fclose (path : String)
  | callocBuf (cells : Nat)
  | freeBuf
  | createShader (kind : ShaderKind) (handle : Nat)
  | shaderSource (handle : Nat) (src : List UInt8)
  | compileShader (handle : Nat)
  | deleteShader (handle : Nat)
  | createProgram (handle : Nat)
  | attachShader (prog : Nat) (handle : Nat)
  | linkProgram (prog : Nat)
  | errOut (e : ErrKind)
deriving DecidableEq, Repr

/-- The external world `glcMakeShaderProgram` interacts with: which paths
`fopen` can open and their contents, the handles `glCreateShader` and
`glCreateProgram` return (`0` = creation failure), and the compile / link
statuses `glGetShaderiv` / `glGetProgramiv` report per handle. -/
structure GLDriver where
  openOk : String → Bool
  contents : String → List UInt8
  shaderHandle : ShaderKind → Nat
  compileOk : Nat → Bool
  programHandle : Nat
  linkOk : Nat → Bool

/-- Result of a `glcMakeShaderProgram` call: the C return value, the final
value of the caller's `*program` out-parameter (equal to the value it held
before the call whenever the code never assigns it), and the event trace. -/
structure MakeResult where
  ret : Int
  programOut : Nat
  events : List Ev
deriving DecidableEq, Repr

/-- Embedding of `glcMakeShaderProgram` (glc.h lines 51-145).
`programIn` is the value the caller's `*program` holds on entry. -/
def glcMakeShaderProgram (d : GLDriver) (programIn : Nat)
    (vPath fPath : String) : MakeResult :=
  if d.openOk vPath = false then
    { ret := -1, programOut := programIn,
      events := [Ev.fopen vPath false, Ev.errOut ErrKind.fileOpenVertex] }
  else if d.openOk fPath = false then
    { ret := -1, programOut := programIn,
      events := [Ev.fopen vPath true, Ev.fopen fPath false,
                 Ev.errOut ErrKind.fileOpenFragment, Ev.fclose vPath] }
  else
    let vBytes := d.contents vPath
    let vertexShader := d.shaderHandle ShaderKind.vertex
    let ev1 : List Ev :=
      [Ev.fopen vPath true, Ev.fopen fPath true,
       Ev.callocBuf (scanLength vBytes + 1),
       Ev.createShader ShaderKind.vertex vertexShader]
    if vertexShader = 0 then
      { ret := -1, programOut := programIn,
        events := ev1 ++ [Ev.errOut ErrKind.shaderCreateVertex,
                          Ev.fclose vPath, Ev.fclose fPath, Ev.freeBuf] }
    else
      let ev2 := ev1 ++ [Ev.shaderSource vertexShader (readFileBuf vBytes),
                         Ev.compileShader vertexShader]
      if d.compileOk vertexShader = false then
        { ret := -1, programOut := programIn,
          events := ev2 ++ [Ev.errOut ErrKind.compileVertex,
                            Ev.fclose vPath, Ev.fclose fPath, Ev.freeBuf] }
      else
        let fBytes := d.contents fPath
        let fragmentShader := d.shaderHandle ShaderKind.fragment
        let ev4 := ev2 ++ [Ev.freeBuf,
                           Ev.callocBuf (scanLength fBytes + 1),
                           Ev.createShader ShaderKind.fragment fragmentShader]
        if fragmentShader = 0 then
          { ret := -1, programOut := programIn,
            events := ev4 ++ [Ev.errOut ErrKind.shaderCreateFragment,
                              Ev.fclose vPath, Ev.fclose fPath, Ev.freeBuf] }
        else
          let ev5 := ev4 ++ [Ev.shaderSource fragmentShader (readFileBuf fBytes),
                             Ev.compileShader fragmentShader]
          if d.compileOk fragmentShader = false then
            { ret := -1, programOut := programIn,
              events := ev5 ++ [Ev.errOut ErrKind.compileFragment,
                                Ev.fclose vPath, Ev.fclose fPath, Ev.freeBuf] }
          else
            let prog := d.programHandle
            let ev7 := ev5 ++ [Ev.fclose vPath, Ev.fclose fPath, Ev.freeBuf,
                               Ev.createProgram prog]
            if prog = 0 then
              { ret := -1, programOut := prog,
                events := ev7 ++ [Ev.errOut ErrKind.programCreate] }
            else
              let ev8 := ev7 ++ [Ev.attachShader prog vertexShader,
                                 Ev.attachShader prog fragmentShader,
                                 Ev.linkProgram prog]
              if d.linkOk prog = false then
                { ret := -1, programOut := prog,
                  events := ev8 ++ [Ev.errOut ErrKind.link] }
              else
                { ret := 1, programOut := prog,
                  events := ev8 ++ [Ev.deleteShader vertexShader,
                                    Ev.deleteShader fragmentShader] }

/-- Handles of shader objects successfully created in a trace
(a `glCreateShader` call that returned 0 created nothing). -/
def createdShaders (evs : List Ev) : List Nat :=
  evs.filterMap fun e =>
    match e with
    | Ev.createShader _ h => if h = 0 then none else some h
    | _ => none

/-- Handles passed to `glDeleteShader` in a trace. -/
def deletedShaders (evs : List Ev) : List Nat :=
  evs.filterMap fun e =>
    match e with
    | Ev.deleteShader h => some h
    | _ => none

/-- Number of successful `fopen` calls in a trace. -/
def fopenOkCount (evs : List Ev) : Nat :=
  (evs.filter fun e =>
    match e with
    | Ev.fopen _ ok => ok
    | _ => false).length

/-- Number of `fclose` calls in a trace. -/
def fcloseCount (evs : List Ev) : Nat :=
  (evs.filter fun e =>
    match e with
    | Ev.fclose _ => true
    | _ => false).length

/-- Number of `calloc` calls in a trace. -/
def callocCount (evs : List Ev) : Nat :=
  (evs.filter fun e =>
    match e with
    | Ev.callocBuf _ => true
    | _ => false).length

/-- Number of `free` calls in a trace. -/
def freeCount (evs : List Ev) : Nat :=
  (evs.filter fun e =>
    match e with
    | Ev.freeBuf => true
    | _ => false).length

/-- The 12 vector uniform upload entry points of the driver,
`glUniform{1,2,3,4}{f,i,ui}v`. -/
inductive GLCall
  | uniform1fv | uniform1iv | uniform1uiv
  | uniform2fv | uniform2iv | uniform2uiv
  | uniform3fv | uniform3iv | uniform3uiv
  | uniform4fv | uniform4iv | uniform4uiv
deriving DecidableEq, Repr, Fintype

/-- The 3 matrix uniform upload entry points, `glUniformMatrix{2,3,4}fv`. -/
inductive GLMatCall
  | uniformMatrix2fv | uniformMatrix3fv | uniformMatrix4fv
deriving DecidableEq, Repr

/-- A driver upload call issued by a setter: the entry point with the
arguments the wrapper passes it.  `buf` stands for the data pointer
(the caller's buffer for the `v` setters, the internal temporary for the
variadic setter, written `0`). -/
inductive Upload
  | vec (entry : GLCall) (location : Int) (count : Int) (buf : Nat)
  | mat (entry : GLMatCall) (location : Int) (count : Int)
      (transpose : Bool) (buf : Nat)
deriving DecidableEq, Repr

/-- Driver state the setters consult: `glGetUniformLocation` per
(program, name), returning `-1` for an unknown uniform, and whether the
variadic setter's internal `malloc` succeeds. -/
structure UniformEnv where
  uniformLocation : Nat → String → Int
  mallocOk : Bool

/-- Result of a setter call: the C return value, the stderr diagnostics
printed, the `glUseProgram` calls made, and the driver uploads issued. -/
structure SetResult where
  ret : Int
  errs : List ErrKind
  used : List Nat
  uploads : List Upload
deriving DecidableEq, Repr

/-- The (type, dimension) dispatch conditional that appears identically at
glc.h lines 197-212 (`glcSetUniformx`) and lines 250-265
(`glcSetUniformxv`): four dimension branches, each selecting
`glUniformNfv` for `GL_FLOAT`, `glUniformNiv` for `GL_INT`, and
`glUniformNuiv` for anything else. -/
def vecDispatch (type dimension : Int) : GLCall :=
  if dimension = 1 then
    if type = GL_FLOAT then GLCall.uniform1fv
    else if type = GL_INT then GLCall.uniform1iv
    else GLCall.uniform1uiv
  else if dimension = 2 then
    if type = GL_FLOAT then GLCall.uniform2fv
    else if type = GL_INT then GLCall.uniform2iv
    else GLCall.uniform2uiv
  else if dimension = 3 then
    if type = GL_FLOAT then GLCall.uniform3fv
    else if type = GL_INT then GLCall.uniform3iv
    else GLCall.uniform3uiv
  else
    if type = GL_FLOAT then GLCall.uniform4fv
    else if type = GL_INT then GLCall.uniform4iv
    else GLCall.uniform4uiv

/-- Embedding of `glcSetUniformx` (glc.h lines 156-216).  The 1-4
variadic values are consumed into an internal buffer that is uploaded
with element count 1; the values themselves do not influence control
flow, so the model records the upload's shape and arguments. -/
def glcSetUniformx (env : UniformEnv) (program : Nat) (name : String)
    (type dimension : Int) : SetResult :=
  if dimension < 1 ∨ dimension > 4 then
    { ret := -1, errs := [ErrKind.invalidDimension], used := [], uploads := [] }
  else
    let location := env.uniformLocation program name
    if location = -1 then
      { ret := -1, errs := [ErrKind.unknownUniform], used := [], uploads := [] }
    else if env.mallocOk = false then
      { ret := -1, errs := [ErrKind.allocFail], used := [program], uploads := [] }
    else
      { ret := 1, errs := [], used := [program],
        uploads := [Upload.vec (vecDispatch type dimension) location 1 0] }

/-- Embedding of `glcSetUniformxv` (glc.h lines 228-268).  `buf` is the
caller's `uniform` pointer, forwarded verbatim to the upload. -/
def glcSetUniformxv (env : UniformEnv) (program : Nat) (name : String)
    (type dimension amount : Int) (buf : Nat) : SetResult :=
  if dimension < 1 ∨ dimension > 4 then
    { ret := -1, errs := [ErrKind.invalidDimension], used := [], uploads := [] }
  else if amount ≤ 0 then
    { ret := -1, errs := [ErrKind.invalidCount], used := [], uploads := [] }
  else
    let location := env.uniformLocation program name
    if location = -1 then
      { ret := -1, errs := [ErrKind.unknownUniform], used := [], uploads := [] }
    else
      { ret := 1, errs := [], used := [program],
        uploads := [Upload.vec (vecDispatch type dimension) location amount buf] }

/-- The dimension dispatch of glc.h lines 286-291: `glUniformMatrix2fv`
for dimension 2, `glUniformMatrix3fv` for 3, `glUniformMatrix4fv`
otherwise. -/
def matDispatch (dimension : Int) : GLMatCall :=
  if dimension = 2 then GLMatCall.uniformMatrix2fv
  else if dimension = 3 then GLMatCall.uniformMatrix3fv
  else GLMatCall.uniformMatrix4fv

/-- Embedding of `glcSetUniformMatx` (glc.h lines 270-294).  Note the
source has no check on `amount`. -/
def glcSetUniformMatx (env : UniformEnv) (program : Nat) (name : String)
    (dimension amount : Int) (transpose : Bool) (buf : Nat) : SetResult :=
  if dimension < 2 ∨ dimension > 4 then
    { ret := -1, errs := [ErrKind.invalidDimension], used := [], uploads := [] }
  else
    let location := env.uniformLocation program name
    if location = -1 then
      { ret := -1, errs := [ErrKind.unknownUniform], used := [], uploads := [] }
    else
      { ret := 1, errs := [], used := [program],
        uploads := [Upload.mat (matDispatch dimension) location amount transpose buf] }

/-- The (type tag, dimension) shape each vector upload entry point is
declared for in the driver's API. -/
def callShape : GLCall → Int × Int
  | GLCall.uniform1fv => (GL_FLOAT, 1)
  | GLCall.uniform1iv => (GL_INT, 1)
  | GLCall.uniform1uiv => (GL_UNSIGNED_INT, 1)
  | GLCall.uniform2fv => (GL_FLOAT, 2)
  | GLCall.uniform2iv => (GL_INT, 2)
  | GLCall.uniform2uiv => (GL_UNSIGNED_INT, 2)
  | GLCall.uniform3fv => (GL_FLOAT, 3)
  | GLCall.uniform3iv => (GL_INT, 3)
  | GLCall.uniform3uiv => (GL_UNSIGNED_INT, 3)
  | GLCall.uniform4fv => (GL_FLOAT, 4)
  | GLCall.uniform4iv => (GL_INT, 4)
  | GLCall.uniform4uiv => (GL_UNSIGNED_INT, 4)

/-- A driver/environment in which every uniform-location lookup fails
(`glGetUniformLocation` always returns `-1`). -/
def noLocEnv : UniformEnv :=
  { uniformLocation := fun _ _ => -1, mallocOk := true }

/-- A driver/environment in which every uniform-location lookup succeeds
(location 0) and `malloc` succeeds. -/
def someLocEnv : UniformEnv :=
  { uniformLocation := fun _ _ => 0, mallocOk := true }

lemma scanLoop_eq (bytes : List UInt8) :
    ∀ len, scanLoop len bytes = len + bytes.length + 1 := by
  induction bytes with
  | nil => intro len; simp [scanLoop]
  | cons b rest ih =>
      intro len
      rw [scanLoop, ih]
      simp
      omega

lemma scanLength_eq (bytes : List UInt8) :
    scanLength bytes = bytes.length + 1 := by
  simp [scanLength, scanLoop_eq]

lemma readFileBuf_eq (bytes : List UInt8) :
    readFileBuf bytes = bytes ++ [0, 0] := by
  simp only [readFileBuf, scanLength_eq]
  rw [min_eq_right (by omega), List.take_length]
  have h2 : bytes.length + 1 + 1 - bytes.length = 2 := by omega
  rw [h2]
  rfl

/-- Claim C5: a vector uniform setter (`glcSetUniformx`,
`glcSetUniformxv`) called with a dimension outside [1,4], and the matrix
setter (`glcSetUniformMatx`) called with a dimension outside [2,4],
return failure (-1) printing the invalid-dimension diagnostic, and issue
no driver upload call (and no `glUseProgram`). -/
theorem C5_invalid_dimension_rejected (env : UniformEnv) (p : Nat)
    (n : String) (t dim amount : Int) (tr : Bool) (buf : Nat) :
    (dim < 1 ∨ dim > 4 →
      glcSetUniformx env p n t dim =
        { ret := -1, errs := [ErrKind.invalidDimension], used := [], uploads := [] } ∧
      glcSetUniformxv env p n t dim amount buf =
        { ret := -1, errs := [ErrKind.invalidDimension], used := [], uploads := [] }) ∧
    (dim < 2 ∨ dim > 4 →
      glcSetUniformMatx env p n dim amount tr buf =
        { ret := -1, errs := [ErrKind.invalidDimension], used := [], uploads := [] }) := by
  constructor
  · intro h
    constructor
    · simp only [glcSetUniformx]
      rw [if_pos h]
    · simp only [glcSetUniformxv]
      rw [if_pos h]
  · intro h
    simp only [glcSetUniformMatx]
    rw [if_pos h]

/-- Concrete instance of C5 at dimension 7. -/
theorem C5_witness :
    ((7:Int) < 1 ∨ (7:Int) > 4) ∧
    glcSetUniformx someLocEnv 1 "u" GL_FLOAT 7 =
      { ret := -1, errs := [ErrKind.invalidDimension], used := [], uploads := [] } ∧
    glcSetUniformxv someLocEnv 1 "u" GL_FLOAT 7 3 0 =
      { ret := -1, errs := [ErrKind.invalidDimension], used := [], uploads := [] } ∧
    glcSetUniformMatx someLocEnv 1 "u" 7 3 false 0 =
      { ret := -1, errs := [ErrKind.invalidDimension], used := [], uploads := [] } :=
  have h := C5_invalid_dimension_rejected someLocEnv 1 "u" GL_FLOAT 7 3 false 0
  ⟨by decide, (h.1 (by decide)).1, (h.1 (by decide)).2, h.2 (by decide)⟩

/-- Claim C6 counterexample: `glcSetUniformxv` called with a valid
dimension (2) and an environment in which the uniform-location lookup of
the given name fails, but with `amount = 0`, reports the invalid-count
diagnostic, not the unknown-uniform one: the source checks `amount <= 0`
before ever calling `glGetUniformLocation`. -/
theorem C6_counterexample :
    noLocEnv.uniformLocation 1 "u" = -1 ∧
    (1:Int) ≤ 2 ∧ (2:Int) ≤ 4 ∧
    (glcSetUniformxv noLocEnv 1 "u" GL_FLOAT 2 0 0).errs ≠ [ErrKind.unknownUniform] ∧
    (glcSetUniformxv noLocEnv 1 "u" GL_FLOAT 2 0 0).errs = [ErrKind.invalidCount] := by
  refine ⟨rfl, by decide, by decide, by decide, rfl⟩

/-- Claim C6 (amended): with a valid dimension and a uniform name whose
location lookup returns the not-found sentinel `-1`, `glcSetUniformx` and
`glcSetUniformMatx` — and `glcSetUniformxv` provided additionally that
`amount > 0` — return failure (-1) printing the unknown-uniform
diagnostic and issue no upload. -/
theorem C6_unknown_uniform_rejected (env : UniformEnv) (p : Nat)
    (n : String) (hloc : env.uniformLocation p n = -1) :
    (∀ t dim : Int, 1 ≤ dim → dim ≤ 4 →
      glcSetUniformx env p n t dim =
        { ret := -1, errs := [ErrKind.unknownUniform], used := [], uploads := [] }) ∧
    (∀ t dim amount : Int, ∀ buf : Nat, 1 ≤ dim → dim ≤ 4 → 0 < amount →
      glcSetUniformxv env p n t dim amount buf =
        { ret := -1, errs := [ErrKind.unknownUniform], used := [], uploads := [] }) ∧
    (∀ dim amount : Int, ∀ tr : Bool, ∀ buf : Nat, 2 ≤ dim → dim ≤ 4 →
      glcSetUniformMatx env p n dim amount tr buf =
        { ret := -1, errs := [ErrKind.unknownUniform], used := [], uploads := [] }) := by
  refine ⟨?_, ?_, ?_⟩
  · intro t dim h1 h4
    simp [glcSetUniformx, show ¬(dim < 1 ∨ dim > 4) from by omega, hloc]
  · intro t dim amount buf h1 h4 ha
    simp [glcSetUniformxv, show ¬(dim < 1 ∨ dim > 4) from by omega,
          show ¬(amount ≤ 0) from by omega, hloc]
  · intro dim amount tr buf h2 h4
    simp [glcSetUniformMatx, show ¬(dim < 2 ∨ dim > 4) from by omega, hloc]

/-- Concrete instance of C6 (amended), in the environment where every
lookup fails. -/
theorem C6_witness :
    noLocEnv.uniformLocation 1 "u" = -1 ∧
    glcSetUniformx noLocEnv 1 "u" GL_FLOAT 3 =
      { ret := -1, errs := [ErrKind.unknownUniform], used := [], uploads := [] } ∧
    glcSetUniformxv noLocEnv 1 "u" GL_INT 2 5 9 =
      { ret := -1, errs := [ErrKind.unknownUniform], used := [], uploads := [] } ∧
    glcSetUniformMatx noLocEnv 1 "u" 4 1 true 9 =
      { ret := -1, errs := [ErrKind.unknownUniform], used := [], uploads := [] } :=
  have h := C6_unknown_uniform_rejected noLocEnv 1 "u" rfl
  ⟨rfl, h.1 GL_FLOAT 3 (by decide) (by decide),
   h.2.1 GL_INT 2 5 9 (by decide) (by decide) (by decide),
   h.2.2 4 1 true 9 (by decide) (by decide)⟩

/-- Claim C7 counterexample: `glcSetUniformxv` called with
`amount = 0 ≤ 0` but dimension 5 reports the invalid-dimension
diagnostic, not the invalid-count one: the source checks the dimension
first. -/
theorem C7_counterexample :
    (0:Int) ≤ 0 ∧
    (glcSetUniformxv someLocEnv 1 "u" GL_FLOAT 5 0 0).errs ≠ [ErrKind.invalidCount] ∧
    (glcSetUniformxv someLocEnv 1 "u" GL_FLOAT 5 0 0).errs = [ErrKind.invalidDimension] := by
  refine ⟨by decide, by decide, rfl⟩

/-- Claim C7 (amended): `glcSetUniformxv` called with a valid dimension
(in [1,4]) and `amount ≤ 0` returns failure (-1) printing the
invalid-count diagnostic and issues no driver upload call. -/
theorem C7_nonpositive_count_rejected (env : UniformEnv) (p : Nat)
    (n : String) (t dim amount : Int) (buf : Nat)
    (h1 : 1 ≤ dim) (h4 : dim ≤ 4) (ha : amount ≤ 0) :
    glcSetUniformxv env p n t dim amount buf =
      { ret := -1, errs := [ErrKind.invalidCount], used := [], uploads := [] } := by
  simp [glcSetUniformxv, show ¬(dim < 1 ∨ dim > 4) from by omega, ha]

/-- Concrete instance of C7 (amended) at dimension 2, amount 0. -/
theorem C7_witness :
    ((1:Int) ≤ 2 ∧ (2:Int) ≤ 4 ∧ (0:Int) ≤ 0) ∧
    glcSetUniformxv someLocEnv 1 "u" GL_FLOAT 2 0 0 =
      { ret := -1, errs := [ErrKind.invalidCount], used := [], uploads := [] } :=
  ⟨by decide,
   C7_nonpositive_count_rejected someLocEnv 1 "u" GL_FLOAT 2 0 0
     (by decide) (by decide) (by decide)⟩

/-- Claim C3: whenever `glcSetUniformx` and `glcSetUniformxv` reach their
dispatch (valid dimension, known uniform, successful malloc, positive
amount), both issue exactly the upload `vecDispatch type dimension`; for
each of the three recognized tags that entry point has exactly the
(type, dimension) shape; any unrecognized tag dispatches to the very
entry point of `GL_UNSIGNED_INT` at that dimension; and `callShape` is
injective, so entry points of distinct (recognized type, dimension)
pairs are distinct. -/
theorem C3_dispatch_table (env : UniformEnv) (p : Nat) (n : String)
    (t dim amount : Int) (buf : Nat)
    (hm : env.mallocOk = true) (hloc : env.uniformLocation p n ≠ -1)
    (h1 : 1 ≤ dim) (h4 : dim ≤ 4) (ha : 0 < amount) :
    (glcSetUniformx env p n t dim).uploads =
      [Upload.vec (vecDispatch t dim) (env.uniformLocation p n) 1 0] ∧
    (glcSetUniformxv env p n t dim amount buf).uploads =
      [Upload.vec (vecDispatch t dim) (env.uniformLocation p n) amount buf] ∧
    (t = GL_FLOAT ∨ t = GL_INT ∨ t = GL_UNSIGNED_INT →
      callShape (vecDispatch t dim) = (t, dim)) ∧
    (t ≠ GL_FLOAT → t ≠ GL_INT →
      vecDispatch t dim = vecDispatch GL_UNSIGNED_INT dim) ∧
    (∀ c c' : GLCall, callShape c = callShape c' → c = c') := by
  refine ⟨?_, ?_, ?_, ?_, ?_⟩
  · simp [glcSetUniformx, show ¬(dim < 1 ∨ dim > 4) from by omega, hloc, hm]
  · simp [glcSetUniformxv, show ¬(dim < 1 ∨ dim > 4) from by omega,
          show ¬(amount ≤ 0) from by omega, hloc]
  · rintro (rfl | rfl | rfl) <;> (interval_cases dim <;> decide)
  · intro hf hi
    simp only [vecDispatch, if_neg hf, if_neg hi]
    norm_num [GL_FLOAT, GL_INT, GL_UNSIGNED_INT]
  · decide

/-- Concrete instance of C3: float at dimension 3, amount 2. -/
theorem C3_witness :
    (someLocEnv.mallocOk = true ∧ someLocEnv.uniformLocation 1 "u" ≠ -1 ∧
      (1:Int) ≤ 3 ∧ (3:Int) ≤ 4 ∧ (0:Int) < 2) ∧
    (glcSetUniformx someLocEnv 1 "u" GL_FLOAT 3).uploads =
      [Upload.vec (vecDispatch GL_FLOAT 3) (someLocEnv.uniformLocation 1 "u") 1 0] ∧
    (glcSetUniformxv someLocEnv 1 "u" GL_FLOAT 3 2 7).uploads =
      [Upload.vec (vecDispatch GL_FLOAT 3) (someLocEnv.uniformLocation 1 "u") 2 7] ∧
    callShape (vecDispatch GL_FLOAT 3) = (GL_FLOAT, 3) :=
  have h := C3_dispatch_table someLocEnv 1 "u" GL_FLOAT 3 2 7 rfl (by decide)
    (by decide) (by decide) (by decide)
  ⟨⟨rfl, by decide, by decide, by decide, by decide⟩,
   h.1, h.2.1, h.2.2.1 (Or.inl rfl)⟩

/-- Claim C9: `glcSetUniformMatx` never validates `amount`: with a
dimension in [2,4] and a name whose location resolves, it returns
success (1) and forwards any `amount` — zero and negative included —
verbatim to the matrix upload call; `glcSetUniformxv`, by contrast,
rejects `amount ≤ 0` with the invalid-count diagnostic. -/
theorem C9_matx_amount_unvalidated (env : UniformEnv) (p : Nat)
    (n : String) (t dim amount : Int) (tr : Bool) (buf : Nat)
    (h2 : 2 ≤ dim) (h4 : dim ≤ 4) (hloc : env.uniformLocation p n ≠ -1) :
    (glcSetUniformMatx env p n dim amount tr buf).ret = 1 ∧
    (glcSetUniformMatx env p n dim amount tr buf).uploads =
      [Upload.mat (matDispatch dim) (env.uniformLocation p n) amount tr buf] ∧
    (amount ≤ 0 → glcSetUniformxv env p n t dim amount buf =
      { ret := -1, errs := [ErrKind.invalidCount], used := [], uploads := [] }) := by
  refine ⟨?_, ?_, ?_⟩
  · simp [glcSetUniformMatx, show ¬(dim < 2 ∨ dim > 4) from by omega, hloc]
  · simp [glcSetUniformMatx, show ¬(dim < 2 ∨ dim > 4) from by omega, hloc]
  · intro ha
    simp [glcSetUniformxv, show ¬(dim < 1 ∨ dim > 4) from by omega, ha]

/-- Concrete instance of C9 at amount -3, dimension 2. -/
theorem C9_witness :
    ((2:Int) ≤ 2 ∧ (2:Int) ≤ 4 ∧ someLocEnv.uniformLocation 1 "u" ≠ -1 ∧
      (-3:Int) ≤ 0) ∧
    (glcSetUniformMatx someLocEnv 1 "u" 2 (-3) true 7).ret = 1 ∧
    (glcSetUniformMatx someLocEnv 1 "u" 2 (-3) true 7).uploads =
      [Upload.mat (matDispatch 2) (someLocEnv.uniformLocation 1 "u") (-3) true 7] ∧
    glcSetUniformxv someLocEnv 1 "u" GL_FLOAT 2 (-3) 7 =
      { ret := -1, errs := [ErrKind.invalidCount], used := [], uploads := [] } :=
  have h := C9_matx_amount_unvalidated someLocEnv 1 "u" GL_FLOAT 2 (-3) true 7
    (by decide) (by decide) (by decide)
  ⟨⟨by decide, by decide, by decide, by decide⟩, h.1, h.2.1, h.2.2 (by decide)⟩

/-- A driver for which every builder step succeeds: both files open
(one byte of content), shader handles 1 and 2, program handle 3. -/
def okDriver : GLDriver :=
  { openOk := fun _ => true, contents := fun _ => [65],
    shaderHandle := fun k =>
      match k with
      | ShaderKind.vertex => 1
      | ShaderKind.fragment => 2,
    compileOk := fun _ => true, programHandle := 3, linkOk := fun _ => true }

/-- `okDriver` except that linking fails. -/
def linkFailDriver : GLDriver :=
  { okDriver with linkOk := fun _ => false }

/-- `okDriver` except that `glCreateProgram` fails (returns 0). -/
def progFailDriver : GLDriver :=
  { okDriver with programHandle := 0 }

/-- A driver for which no file opens. -/
def noVertexDriver : GLDriver :=
  { okDriver with openOk := fun _ => false }

/-- A driver for which only the path "v.vert" opens. -/
def noFragmentDriver : GLDriver :=
  { okDriver with openOk := fun p => p == "v.vert" }

/-- Claim C1 (refuted by the code, confirming the bug): on the LinkError
and ProgramCreateError paths `glcMakeShaderProgram` returns -1 leaving
both successfully created shader objects undeleted — `glDeleteShader` is
called only on the success path (glc.h lines 142-143), so the compiled
units leak, contradicting the mandatory-cleanup requirement.  (File
handles and the source buffer are balanced on these paths.) -/
theorem C1_failure_leaks_shader_units :
    ((glcMakeShaderProgram linkFailDriver 0 "v.vert" "f.frag").ret = -1 ∧
      createdShaders (glcMakeShaderProgram linkFailDriver 0 "v.vert" "f.frag").events = [1, 2] ∧
      deletedShaders (glcMakeShaderProgram linkFailDriver 0 "v.vert" "f.frag").events = [] ∧
      fopenOkCount (glcMakeShaderProgram linkFailDriver 0 "v.vert" "f.frag").events =
        fcloseCount (glcMakeShaderProgram linkFailDriver 0 "v.vert" "f.frag").events ∧
      callocCount (glcMakeShaderProgram linkFailDriver 0 "v.vert" "f.frag").events =
        freeCount (glcMakeShaderProgram linkFailDriver 0 "v.vert" "f.frag").events) ∧
    ((glcMakeShaderProgram progFailDriver 0 "v.vert" "f.frag").ret = -1 ∧
      createdShaders (glcMakeShaderProgram progFailDriver 0 "v.vert" "f.frag").events = [1, 2] ∧
      deletedShaders (glcMakeShaderProgram progFailDriver 0 "v.vert" "f.frag").events = []) := by
  refine ⟨⟨rfl, rfl, rfl, rfl, rfl⟩, rfl, rfl, rfl⟩

/-- Claim C2: when both files open and both stages compile, program
creation succeeds and linking succeeds, `glcMakeShaderProgram` returns 1,
writes the driver's (non-zero) program handle to `*program`, and calls
`glDeleteShader` on both intermediate shader units before returning. -/
theorem C2_success_path (d : GLDriver) (pIn : Nat) (vP fP : String)
    (hov : d.openOk vP = true) (hof : d.openOk fP = true)
    (hvs : d.shaderHandle ShaderKind.vertex ≠ 0)
    (hfs : d.shaderHandle ShaderKind.fragment ≠ 0)
    (hcv : d.compileOk (d.shaderHandle ShaderKind.vertex) = true)
    (hcf : d.compileOk (d.shaderHandle ShaderKind.fragment) = true)
    (hp : d.programHandle ≠ 0) (hl : d.linkOk d.programHandle = true) :
    (glcMakeShaderProgram d pIn vP fP).ret = 1 ∧
    (glcMakeShaderProgram d pIn vP fP).programOut = d.programHandle ∧
    (glcMakeShaderProgram d pIn vP fP).programOut ≠ 0 ∧
    deletedShaders (glcMakeShaderProgram d pIn vP fP).events =
      [d.shaderHandle ShaderKind.vertex, d.shaderHandle ShaderKind.fragment] := by
  refine ⟨?_, ?_, ?_, ?_⟩ <;>
    simp [glcMakeShaderProgram, hov, hof, hvs, hfs, hcv, hcf, hp, hl,
          deletedShaders, List.filterMap_append]

/-- Concrete instance of C2 on `okDriver`. -/
theorem C2_witness :
    (okDriver.openOk "v.vert" = true ∧ okDriver.openOk "f.frag" = true ∧
      okDriver.shaderHandle ShaderKind.vertex ≠ 0 ∧
      okDriver.shaderHandle ShaderKind.fragment ≠ 0 ∧
      okDriver.compileOk 1 = true ∧ okDriver.compileOk 2 = true ∧
      okDriver.programHandle ≠ 0 ∧ okDriver.linkOk 3 = true) ∧
    (glcMakeShaderProgram okDriver 0 "v.vert" "f.frag").ret = 1 ∧
    (glcMakeShaderProgram okDriver 0 "v.vert" "f.frag").programOut = okDriver.programHandle ∧
    (glcMakeShaderProgram okDriver 0 "v.vert" "f.frag").programOut ≠ 0 ∧
    deletedShaders (glcMakeShaderProgram okDriver 0 "v.vert" "f.frag").events =
      [okDriver.shaderHandle ShaderKind.vertex, okDriver.shaderHandle ShaderKind.fragment] :=
  have h := C2_success_path okDriver 0 "v.vert" "f.frag" rfl rfl
    (by decide) (by decide) rfl rfl (by decide) rfl
  ⟨⟨rfl, rfl, by decide, by decide, rfl, rfl, by decide, rfl⟩,
   h.1, h.2.1, h.2.2.1, h.2.2.2⟩

/-- Claim C8: if the vertex file fails to open, `glcMakeShaderProgram`
returns -1 after exactly one `fopen` attempt (the vertex one) — the
fragment file is never opened; if the vertex file opens and the fragment
file fails to open, it returns -1 and the trace ends with `fclose` of
the vertex file, so the already-open vertex file is closed before
returning. -/
theorem C8_open_failure_paths (d : GLDriver) (pIn : Nat) (vP fP : String) :
    (d.openOk vP = false →
      glcMakeShaderProgram d pIn vP fP =
        { ret := -1, programOut := pIn,
          events := [Ev.fopen vP false, Ev.errOut ErrKind.fileOpenVertex] }) ∧
    (d.openOk vP = true → d.openOk fP = false →
      glcMakeShaderProgram d pIn vP fP =
        { ret := -1, programOut := pIn,
          events := [Ev.fopen vP true, Ev.fopen fP false,
                     Ev.errOut ErrKind.fileOpenFragment, Ev.fclose vP] }) := by
  constructor
  · intro h
    simp [glcMakeShaderProgram, h]
  · intro h1 h2
    simp [glcMakeShaderProgram, h1, h2]

/-- Concrete instances of C8's two failure paths. -/
theorem C8_witness :
    (noVertexDriver.openOk "v.vert" = false ∧
      glcMakeShaderProgram noVertexDriver 7 "v.vert" "f.frag" =
        { ret := -1, programOut := 7,
          events := [Ev.fopen "v.vert" false, Ev.errOut ErrKind.fileOpenVertex] }) ∧
    (noFragmentDriver.openOk "v.vert" = true ∧
      noFragmentDriver.openOk "f.frag" = false ∧
      glcMakeShaderProgram noFragmentDriver 7 "v.vert" "f.frag" =
        { ret := -1, programOut := 7,
          events := [Ev.fopen "v.vert" true, Ev.fopen "f.frag" false,
                     Ev.errOut ErrKind.fileOpenFragment, Ev.fclose "v.vert"] }) :=
  ⟨⟨rfl, (C8_open_failure_paths noVertexDriver 7 "v.vert" "f.frag").1 rfl⟩,
   ⟨by decide, by decide,
    (C8_open_failure_paths noFragmentDriver 7 "v.vert" "f.frag").2
      (by decide) (by decide)⟩⟩

/-- The builder failures that occur before `*program = glCreateProgram()`
(glc.h line 124): either file-open failure, either shader-object
creation failure, or either compile failure. -/
def failsBeforeProgramCreate (d : GLDriver) (vP fP : String) : Prop :=
  d.openOk vP = false ∨ d.openOk fP = false ∨
  d.shaderHandle ShaderKind.vertex = 0 ∨
  d.compileOk (d.shaderHandle ShaderKind.vertex) = false ∨
  d.shaderHandle ShaderKind.fragment = 0 ∨
  d.compileOk (d.shaderHandle ShaderKind.fragment) = false

instance (d : GLDriver) (vP fP : String) :
    Decidable (failsBeforeProgramCreate d vP fP) := by
  unfold failsBeforeProgramCreate
  infer_instance

/-- Claim C10: on every `glcMakeShaderProgram` failure occurring before
the program object is created, the caller's `*program` keeps its prior
value (and the call returns -1); once execution reaches the
program-creation step, `*program` is assigned the handle
`glCreateProgram` returned. -/
theorem C10_program_out_untouched (d : GLDriver) (pIn : Nat)
    (vP fP : String) :
    (failsBeforeProgramCreate d vP fP →
      (glcMakeShaderProgram d pIn vP fP).programOut = pIn ∧
      (glcMakeShaderProgram d pIn vP fP).ret = -1) ∧
    (¬ failsBeforeProgramCreate d vP fP →
      (glcMakeShaderProgram d pIn vP fP).programOut = d.programHandle) := by
  simp only [glcMakeShaderProgram]
  split_ifs <;> simp_all [failsBeforeProgramCreate]

/-- Concrete instances of C10: an early failure keeps `*program` at 7; a
run reaching program creation overwrites it with the driver's handle. -/
theorem C10_witness :
    (failsBeforeProgramCreate noVertexDriver "v.vert" "f.frag" ∧
      (glcMakeShaderProgram noVertexDriver 7 "v.vert" "f.frag").programOut = 7 ∧
      (glcMakeShaderProgram noVertexDriver 7 "v.vert" "f.frag").ret = -1) ∧
    (¬ failsBeforeProgramCreate linkFailDriver "v.vert" "f.frag" ∧
      (glcMakeShaderProgram linkFailDriver 7 "v.vert" "f.frag").programOut =
        linkFailDriver.programHandle) :=
  ⟨⟨Or.inl rfl,
    (C10_program_out_untouched noVertexDriver 7 "v.vert" "f.frag").1 (Or.inl rfl)⟩,
   ⟨by decide,
    (C10_program_out_untouched linkFailDriver 7 "v.vert" "f.frag").2 (by decide)⟩⟩

/-- A builder driver whose two files have the given contents (vertex
file at path "v.vert", fragment file at "f.frag"), with every driver
step succeeding. -/
def contentsDriver (v f : List UInt8) : GLDriver :=
  { okDriver with contents := fun p => if p = "v.vert" then v else f }

/-- Claim C4 counterexample: for a 1-byte shader file, the EOF scan of
glc.h line 72 computes `length = 2`, not the file's byte length 1, and
the buffer is `calloc`'d with 3 cells, not byte length + 1 = 2: the
do-while increments `length` once per byte read *and once for the EOF
read*. -/
theorem C4_counterexample :
    scanLength [65] ≠ 1 ∧ (readFileBuf [65]).length ≠ 1 + 1 := by
  decide

/-- Claim C4 (amended): the scan determines the byte length N only up to
an off-by-one — it yields N + 1 (it also counts the EOF read) — so the
owned buffer is sized N + 2, the file's byte length plus two; the whole
file is read into the buffer's prefix, the buffer ends in two zero
bytes (in particular it is null-terminated), and that exact buffer is
what `glcMakeShaderProgram` hands to `glShaderSource`. -/
theorem C4_scan_and_buffer :
    ∀ bytes : List UInt8,
      scanLength bytes = bytes.length + 1 ∧
      (readFileBuf bytes).length = bytes.length + 2 ∧
      (readFileBuf bytes).take bytes.length = bytes ∧
      (readFileBuf bytes).drop bytes.length = [0, 0] ∧
      Ev.shaderSource 1 (readFileBuf bytes) ∈
        (glcMakeShaderProgram (contentsDriver bytes []) 0 "v.vert" "f.frag").events := by
  intro bytes
  refine ⟨scanLength_eq bytes, ?_, ?_, ?_, ?_⟩
  · rw [readFileBuf_eq]
    simp
  · rw [readFileBuf_eq]
    simp
  · rw [readFileBuf_eq]
    simp
  · simp [glcMakeShaderProgram, contentsDriver, okDriver]

end GLC
